import Mathlib

/-
Verification of the astrometry-net-client request/session layer.

Shallow embedding of src/astrometry_net_client/client.py and
src/astrometry_net_client/request.py.  Decoded JSON responses and the
data/settings mappings are modelled as association lists with Python
dict semantics (update-in-place on existing key, append otherwise,
lookup of the unique occurrence).  The network is modelled as an
environment: a stream of decoded responses per endpoint (the login
endpoint used by Session.login, and the request endpoint used by
Request._make_request), together with a counter of calls made to each.
Python exceptions are modelled with an Except monad; state mutated
before a raise (call counters, instance fields) is threaded explicitly
so it survives the raise, as in Python.
-/

namespace AstrometryNetClient

set_option maxRecDepth 8192

/-- Python str.lower on the ASCII strings the client uses for HTTP
method names. -/
def strLower (s : String) : String :=
  ⟨s.data.map Char.toLower⟩

/-- Python str.startswith: the second string is a prefix of the first. -/
def strStartsWith (s p : String) : Bool :=
  p.data.isPrefixOf s.data

/-- Value of a decoded JSON field. -/
inductive Val where
  | vStr (s : String)
  | vNum (n : Int)
  | vBool (b : Bool)
  | vNull
deriving DecidableEq

/-- Lookup of the value at the first occurrence of a key in an association
list; a Python dict keeps keys unique, so this is the occurrence. -/
def lookupKey : List (String × Val) → String → Option Val
  | [], _ => none
  | p :: rest, k => if p.1 = k then some p.2 else lookupKey rest k

/-- Python dict assignment d[k] = v: updates the value in place when the key
is present (keeping its position), appends the pair at the end otherwise. -/
def insertKey : List (String × Val) → String → Val → List (String × Val)
  | [], k, v => [(k, v)]
  | p :: rest, k, v => if p.1 = k then (k, v) :: rest else p :: insertKey rest k v

/-- Python dict merge as in the expression with double-star unpacking of d
then s: start from d and assign every entry of s in order, so s wins every
key collision. -/
def mergeKey (d : List (String × Val)) (s : List (String × Val)) : List (String × Val) :=
  s.foldl (fun acc p => insertKey acc p.1 p.2) d

/-- A Python dict with string keys and JSON values. -/
structure Dict where
  entries : List (String × Val)
deriving DecidableEq

def Dict.get? (d : Dict) (k : String) : Option Val :=
  lookupKey d.entries k

/-- Python d.get(k, v): the value at k, or the default v. -/
def Dict.getD (d : Dict) (k : String) (v : Val) : Val :=
  (d.get? k).getD v

/-- Python d[k] = v on the dict value. -/
def Dict.insert (d : Dict) (k : String) (v : Val) : Dict :=
  ⟨insertKey d.entries k v⟩

/-- The merged dict with double-star unpacking of d then s. -/
def Dict.merge (d s : Dict) : Dict :=
  ⟨mergeKey d.entries s.entries⟩

def Dict.keys (d : Dict) : List String :=
  d.entries.map Prod.fst

/-- Invariant of every Python dict: keys occur at most once. -/
def Dict.NodupKeys (d : Dict) : Prop :=
  d.keys.Nodup

instance (d : Dict) : Decidable d.NodupKeys :=
  inferInstanceAs (Decidable d.keys.Nodup)

theorem lookupKey_insertKey_self (l : List (String × Val)) (k : String) (v : Val) :
    lookupKey (insertKey l k v) k = some v := by
  induction l with
  | nil => simp [insertKey, lookupKey]
  | cons p rest ih =>
    by_cases h : p.1 = k
    · simp [insertKey, h, lookupKey]
    · simp [insertKey, h, lookupKey, ih]

theorem lookupKey_insertKey_ne (l : List (String × Val)) (k k' : String) (v : Val)
    (h : k' ≠ k) : lookupKey (insertKey l k v) k' = lookupKey l k' := by
  induction l with
  | nil => simp [insertKey, lookupKey, Ne.symm h]
  | cons p rest ih =>
    by_cases hp : p.1 = k
    · simp [insertKey, hp, lookupKey, Ne.symm h, ih]
    · simp [insertKey, hp, lookupKey, ih]

theorem lookupKey_eq_none_of_not_mem (l : List (String × Val)) (k : String)
    (h : k ∉ l.map Prod.fst) : lookupKey l k = none := by
  induction l with
  | nil => rfl
  | cons p rest ih =>
    simp only [List.map_cons, List.mem_cons] at h
    push_neg at h
    simp [lookupKey, Ne.symm h.1, ih h.2]

theorem lookupKey_mergeKey_of_none (s d : List (String × Val)) (k : String)
    (h : lookupKey s k = none) :
    lookupKey (mergeKey d s) k = lookupKey d k := by
  induction s generalizing d with
  | nil => rfl
  | cons p rest ih =>
    simp only [lookupKey] at h
    by_cases hp : p.1 = k
    · simp [hp] at h
    · simp only [hp, if_false] at h
      have step : mergeKey d (p :: rest) = mergeKey (insertKey d p.1 p.2) rest := rfl
      rw [step, ih (insertKey d p.1 p.2) h,
        lookupKey_insertKey_ne (d) (p.1) (k) (p.2) (fun hk => hp hk.symm)]

theorem lookupKey_mergeKey_of_some (s d : List (String × Val)) (k : String) (v : Val)
    (hnd : (s.map Prod.fst).Nodup) (h : lookupKey s k = some v) :
    lookupKey (mergeKey d s) k = some v := by
  induction s generalizing d with
  | nil => simp [lookupKey] at h
  | cons p rest ih =>
    simp only [List.map_cons, List.nodup_cons] at hnd
    have step : mergeKey d (p :: rest) = mergeKey (insertKey d p.1 p.2) rest := rfl
    simp only [lookupKey] at h
    by_cases hp : p.1 = k
    · simp only [hp, if_true] at h
      have hnone : lookupKey rest k = none := by
        apply lookupKey_eq_none_of_not_mem
        rw [← hp]
        exact hnd.1
      rw [step, lookupKey_mergeKey_of_none rest (insertKey d p.1 p.2) k hnone, hp,
        lookupKey_insertKey_self]
      exact h
    · simp only [hp, if_false] at h
      rw [step]
      exact ih (insertKey d p.1 p.2) hnd.2 h

/-- Python exceptions that the embedded code can raise.  The first three are
raised by the classification in the internal make-request method of Request;
keyError and attributeError model the built-in Python exceptions of the same
names; loginFailedException carries str(response) as raised by Session.login;
apiKeyError models the credentials error of Session.__init__. -/
inductive PyErr where
  | noSessionError (msg : String)
  | invalidSessionError (msg : String)
  | invalidRequest (msg : String)
  | keyError (key : String)
  | attributeError (name : String)
  | loginFailedException (response : Dict)
  | apiKeyError (msg : String)
deriving DecidableEq

/-- The environment of the embedding: what the remote API answers, per
endpoint, and how many HTTP calls have been made to each endpoint.
loginResponses n is the decoded JSON body answered to the n-th call of the
login endpoint (made by Session.login); reqResponses n p is the decoded JSON
body answered to the n-th call of the request endpoint when the merged
request-json object sent is p (made by the internal make-request method of
Request). -/
structure World where
  loginResponses : Nat → Dict
  reqResponses : Nat → Dict → Dict
  loginCalls : Nat
  reqCalls : Nat

/-- State of a Session object of client.py: api_key from __init__ (an
Option, since os.environ.get can leave it None), the logged_in flag, and
the key attribute, absent (none) until the first successful login. -/
structure Session where
  api_key : Option String
  logged_in : Bool
  key : Option Val
deriving DecidableEq

/-- Python os.environ.get(name): the value of the variable, or None when it
is unset.  Unlike indexing, .get never raises KeyError. -/
def os_environ_get (env : String → Option String) (name : String) :
    Except PyErr (Option String) :=
  .ok (env name)

/-- Session.__init__ of client.py.  api_key and key_location are the
constructor arguments (none models Python None, the default);
read_api_key models the key-file reader imported from config (not part of
the sources under verification, used opaquely); env models the process
environment.  The try/except around the environment lookup is embedded as
a match on the result of os_environ_get, including the except KeyError
branch that raises APIKeyError. -/
def Session.init (api_key : Option String) (key_location : Option String)
    (read_api_key : String → String) (env : String → Option String) :
    Except PyErr Session :=
  match api_key with
  | some k => .ok { api_key := some k, logged_in := false, key := none }
  | none =>
    match key_location with
    | some loc =>
      .ok { api_key := some (read_api_key loc), logged_in := false, key := none }
    | none =>
      match os_environ_get env "ASTROMETRY_API_KEY" with
      | .error (.keyError _) =>
        .error (.apiKeyError "No api key found or given.")
      | .error e => .error e
      | .ok v => .ok { api_key := v, logged_in := false, key := none }

/-- The HTTP method of a Request, the value stored by the lookup in the
method dict of request.py. -/
inductive HttpMethod where
  | get
  | post
deriving DecidableEq

/-- The method dict of Request: lookup in a dict with exactly the keys
post and get; any other key means the lookup raises KeyError. -/
def methodDict (m : String) : Option HttpMethod :=
  if m = "post" then some HttpMethod.post
  else if m = "get" then some HttpMethod.get
  else none

/-- State of a Request object of request.py: url (none when the argument
was None and the attribute is left to a subclass), the resolved method,
the private copies of the data and settings mappings, and the response
attribute set by the internal make-request method. -/
structure Request where
  url : Option String
  method : HttpMethod
  data : Dict
  settings : Dict
  response : Option Dict

/-- Request.__init__ of request.py: data and settings default to the
empty dict when None and are copied otherwise (the Dict value held by the
instance is its own); the method string is lowercased and looked up in
the method dict, and an unknown method raises KeyError with the
lowercased string, so construction fails eagerly. -/
def Request.init (url : Option String) (method : String)
    (data : Option Dict) (settings : Option Dict) : Except PyErr Request :=
  let d := match data with | none => ⟨[]⟩ | some d0 => d0
  let s := match settings with | none => ⟨[]⟩ | some s0 => s0
  match methodDict (strLower method) with
  | none => .error (.keyError (strLower method))
  | some m =>
    .ok { url := url, method := m, data := d, settings := s, response := none }

/-- The object serialized under the request-json form field by the internal
make-request method: the merge with double-star unpacking of self.data then
self.settings, so settings wins every key collision. -/
def Request.payload (r : Request) : Dict :=
  Dict.merge r.data r.settings

/-- Error classification of the internal make-request method of Request on
the decoded response: when the status field (defaulting to the empty
string) is the string error, the errormessage field is read (KeyError when
absent, AttributeError on startswith when not a string) and matched:
exactly the text no "session" in JSON. raises NoSessionError, a text with
prefix no session with key raises InvalidSessionError, and any other text
raises the fallback InvalidRequest; otherwise the decoded response is
returned unchanged. -/
def classifyResponse (response : Dict) : Except PyErr Dict :=
  if response.getD "status" (Val.vStr "") = Val.vStr "error" then
    match response.get? "errormessage" with
    | none => .error (.keyError "errormessage")
    | some (Val.vStr msg) =>
      if msg = "no \"session\" in JSON." then .error (.noSessionError msg)
      else if strStartsWith msg "no session with key" then
        .error (.invalidSessionError msg)
      else .error (.invalidRequest msg)
    | some _ => .error (.attributeError "startswith")
  else .ok response

/-- The internal make-request method of Request: serializes the merged
payload, makes one HTTP call to the request endpoint, stores the decoded
response in the response attribute, and classifies it.  The call counter
is incremented and the response attribute is set whether or not the
classification raises, as in Python. -/
def Request.send1 (r : Request) (w : World) :
    Except PyErr Dict × Request × World :=
  let raw := w.reqResponses w.reqCalls r.payload
  let w1 : World := { w with reqCalls := w.reqCalls + 1 }
  let r1 : Request := { r with response := some raw }
  (classifyResponse raw, r1, w1)

/-- Session.login of client.py.  When force is false and logged_in is
true it returns immediately with no network call and no state change.
Otherwise it makes one POST request to the login endpoint (one network
call, counted, whatever the outcome), whose decoded response goes through
the classification of the internal make-request method; then a status
other than the string success raises LoginFailedException carrying the
response; on success the session field of the response is stored in the
key attribute (KeyError when absent) and logged_in is set to true. -/
def Session.login (force : Bool) (s : Session) (w : World) :
    Except PyErr Unit × Session × World :=
  if force = false ∧ s.logged_in = true then (.ok (), s, w)
  else
    let raw := w.loginResponses w.loginCalls
    let w1 : World := { w with loginCalls := w.loginCalls + 1 }
    match classifyResponse raw with
    | .error e => (.error e, s, w1)
    | .ok response =>
      if response.get? "status" = some (Val.vStr "success") then
        match response.get? "session" with
        | none => (.error (.keyError "session"), s, w1)
        | some v =>
          (.ok (), { s with key := some v, logged_in := true }, w1)
      else (.error (.loginFailedException response), s, w1)

/-- The internal make-request method of AuthorizedRequest: a non-forced
login on the bound Session, injection of the session key into the data
mapping of the instance, then the base send; when that raises
InvalidSessionError, one forced login, a fresh injection of the new key,
and exactly one retry of the base send, whose outcome (success or any
exception) is final; any other exception of the first send propagates
immediately.  Reading the key attribute before any successful login is
an AttributeError. -/
def AuthorizedRequest.send (r : Request) (s : Session) (w : World) :
    Except PyErr Dict × Request × Session × World :=
  match Session.login false s w with
  | (.error e, s1, w1) => (.error e, r, s1, w1)
  | (.ok _, s1, w1) =>
    match s1.key with
    | none => (.error (.attributeError "key"), r, s1, w1)
    | some kv =>
      match Request.send1 { r with data := r.data.insert "session" kv } w1 with
      | (.ok d, r2, w2) => (.ok d, r2, s1, w2)
      | (.error (.invalidSessionError _), r2, w2) =>
        match Session.login true s1 w2 with
        | (.error e2, s2, w3) => (.error e2, r2, s2, w3)
        | (.ok _, s2, w3) =>
          match s2.key with
          | none => (.error (.attributeError "key"), r2, s2, w3)
          | some kv2 =>
            match Request.send1 { r2 with data := r2.data.insert "session" kv2 } w3 with
            | (res, r4, w4) => (res, r4, s2, w4)
      | (.error e, r2, w2) => (.error e, r2, s1, w2)

/-- A heap of Python dict objects, for the aliasing claims: references are
naturals below next, and mem gives the current contents of each. -/
structure Heap where
  mem : Nat → Dict
  next : Nat

/-- Allocation of a fresh dict object holding the given contents. -/
def Heap.alloc (h : Heap) (d : Dict) : Heap × Nat :=
  ({ mem := fun x => if x = h.next then d else h.mem x, next := h.next + 1 }, h.next)

/-- In-place replacement of the contents of an existing dict object. -/
def Heap.write (h : Heap) (x : Nat) (d : Dict) : Heap :=
  { h with mem := fun y => if y = x then d else h.mem y }

/-- Request.__init__ at the heap level: the instance copies the caller
mappings — it reads the contents of the data argument (empty when None)
and allocates a fresh object for its data attribute, and likewise for
settings.  Returns the heap and the references of the two fresh objects. -/
def Request.initHeap (h : Heap) (dataRef : Option Nat) (settingsRef : Option Nat) :
    Heap × Nat × Nat :=
  let dContents := match dataRef with | none => ⟨[]⟩ | some x => h.mem x
  let p1 := h.alloc dContents
  let sContents := match settingsRef with | none => ⟨[]⟩ | some x => p1.1.mem x
  let p2 := p1.1.alloc sContents
  (p2.1, p1.2, p2.2)

/-- The session-key injection of AuthorizedRequest at the heap level: the
assignment of the key into the data attribute mutates the dict object the
data attribute refers to, in place. -/
def injectSessionHeap (h : Heap) (dataRef : Nat) (key : Val) : Heap :=
  h.write dataRef ((h.mem dataRef).insert "session" key)

theorem classifyResponse_ok (r : Dict)
    (h : r.getD "status" (Val.vStr "") ≠ Val.vStr "error") :
    classifyResponse r = .ok r := by
  unfold classifyResponse
  rw [if_neg h]

theorem classifyResponse_ok_of_status_success (r : Dict)
    (h : r.get? "status" = some (Val.vStr "success")) :
    classifyResponse r = .ok r := by
  apply classifyResponse_ok
  simp [Dict.getD, h]

theorem login_noop (s : Session) (w : World) (h : s.logged_in = true) :
    Session.login false s w = (.ok (), s, w) := by
  unfold Session.login
  rw [if_pos ⟨rfl, h⟩]

theorem login_success (force : Bool) (s : Session) (w : World) (v : Val)
    (hcond : force = true ∨ s.logged_in = false)
    (hst : (w.loginResponses w.loginCalls).get? "status" = some (Val.vStr "success"))
    (hsess : (w.loginResponses w.loginCalls).get? "session" = some v) :
    Session.login force s w =
      (.ok (), { s with key := some v, logged_in := true },
       { w with loginCalls := w.loginCalls + 1 }) := by
  unfold Session.login
  have hc : ¬(force = false ∧ s.logged_in = true) := by
    rcases hcond with h | h <;> simp [h]
  rw [if_neg hc]
  simp only [classifyResponse_ok_of_status_success _ hst, hst, hsess, if_true]

theorem login_failure (force : Bool) (s : Session) (w : World)
    (hcond : force = true ∨ s.logged_in = false)
    (hok : (w.loginResponses w.loginCalls).getD "status" (Val.vStr "") ≠ Val.vStr "error")
    (hfail : ¬ (w.loginResponses w.loginCalls).get? "status" = some (Val.vStr "success")) :
    Session.login force s w =
      (.error (.loginFailedException (w.loginResponses w.loginCalls)), s,
       { w with loginCalls := w.loginCalls + 1 }) := by
  unfold Session.login
  have hc : ¬(force = false ∧ s.logged_in = true) := by
    rcases hcond with h | h <;> simp [h]
  rw [if_neg hc]
  simp only [classifyResponse_ok _ hok, if_neg hfail]

theorem classifyResponse_invalid_session (resp : Dict) (msg : String)
    (hst : resp.getD "status" (Val.vStr "") = Val.vStr "error")
    (herr : resp.get? "errormessage" = some (Val.vStr msg))
    (hpre : strStartsWith msg "no session with key" = true) :
    classifyResponse resp = .error (.invalidSessionError msg) := by
  have hne : msg ≠ "no \"session\" in JSON." := by
    intro heq
    rw [heq] at hpre
    exact absurd hpre (by decide)
  simp [classifyResponse, hst, herr, hne, hpre]

theorem send1_eq (r : Request) (w : World) :
    Request.send1 r w =
      (classifyResponse (w.reqResponses w.reqCalls r.payload),
       { r with response := some (w.reqResponses w.reqCalls r.payload) },
       { w with reqCalls := w.reqCalls + 1 }) := rfl

theorem login_world_of_call (force : Bool) (s : Session) (w : World)
    (hc : ¬(force = false ∧ s.logged_in = true)) :
    ((Session.login force s w).2.2) = { w with loginCalls := w.loginCalls + 1 } := by
  unfold Session.login
  rw [if_neg hc]
  cases hcl : classifyResponse (w.loginResponses w.loginCalls) with
  | error e => simp only [hcl]
  | ok resp =>
    simp only [hcl]
    by_cases h : resp.get? "status" = some (Val.vStr "success")
    · rw [if_pos h]
      cases hs : resp.get? "session" <;> simp only [hs]
    · rw [if_neg h]

theorem login_reqCalls (force : Bool) (s : Session) (w : World) :
    ((Session.login force s w).2.2).reqCalls = w.reqCalls := by
  by_cases hc : force = false ∧ s.logged_in = true
  · unfold Session.login
    rw [if_pos hc]
  · rw [login_world_of_call force s w hc]

theorem login_loginCalls_of_call (force : Bool) (s : Session) (w : World)
    (hc : ¬(force = false ∧ s.logged_in = true)) :
    ((Session.login force s w).2.2).loginCalls = w.loginCalls + 1 := by
  rw [login_world_of_call force s w hc]

theorem reqCalls_of_login_eq (force : Bool) (s : Session) (w : World)
    (res : Except PyErr Unit) (s1 : Session) (w1 : World)
    (h : Session.login force s w = (res, s1, w1)) : w1.reqCalls = w.reqCalls := by
  have h0 := login_reqCalls force s w
  rw [h] at h0
  exact h0

theorem reqCalls_of_send1_eq (r : Request) (w : World)
    (res : Except PyErr Dict) (r2 : Request) (w2 : World)
    (h : Request.send1 r w = (res, r2, w2)) : w2.reqCalls = w.reqCalls + 1 := by
  have h0 : ((Request.send1 r w).2.2).reqCalls = w.reqCalls + 1 := rfl
  rw [h] at h0
  exact h0

theorem settings_of_send1_eq (r : Request) (w : World)
    (res : Except PyErr Dict) (r2 : Request) (w2 : World)
    (h : Request.send1 r w = (res, r2, w2)) : r2.settings = r.settings := by
  have h0 : ((Request.send1 r w).2.1).settings = r.settings := rfl
  rw [h] at h0
  exact h0

theorem send_reqCalls_le (r : Request) (s : Session) (w : World) :
    ((AuthorizedRequest.send r s w).2.2.2).reqCalls ≤ w.reqCalls + 2 := by
  unfold AuthorizedRequest.send
  split
  · rename_i e s1 w1 heq
    have h1 := reqCalls_of_login_eq _ _ _ _ _ _ heq
    show w1.reqCalls ≤ w.reqCalls + 2
    omega
  · rename_i u s1 w1 heq
    have h1 := reqCalls_of_login_eq _ _ _ _ _ _ heq
    split
    · show w1.reqCalls ≤ w.reqCalls + 2
      omega
    · rename_i kv hk
      split
      · rename_i d r2 w2 heq2
        have h2 := reqCalls_of_send1_eq _ _ _ _ _ heq2
        show w2.reqCalls ≤ w.reqCalls + 2
        omega
      · rename_i m r2 w2 heq2
        have h2 := reqCalls_of_send1_eq _ _ _ _ _ heq2
        split
        · rename_i e2 s2 w3 heq3
          have h3 := reqCalls_of_login_eq _ _ _ _ _ _ heq3
          show w3.reqCalls ≤ w.reqCalls + 2
          omega
        · rename_i u2 s2 w3 heq3
          have h3 := reqCalls_of_login_eq _ _ _ _ _ _ heq3
          split
          · show w3.reqCalls ≤ w.reqCalls + 2
            omega
          · rename_i kv2 hk2
            split
            rename_i res r4 w4 heq4
            have h4 := reqCalls_of_send1_eq _ _ _ _ _ heq4
            show w4.reqCalls ≤ w.reqCalls + 2
            omega
      · rename_i e2 r2 w2 hne2 heq2
        have h2 := reqCalls_of_send1_eq _ _ _ _ _ heq2
        show w2.reqCalls ≤ w.reqCalls + 2
        omega

theorem send_settings_preserved (r : Request) (s : Session) (w : World) :
    ((AuthorizedRequest.send r s w).2.1).settings = r.settings := by
  unfold AuthorizedRequest.send
  split
  · rfl
  · rename_i u s1 w1 heq
    split
    · rfl
    · rename_i kv hk
      split
      · rename_i d r2 w2 heq2
        have h2 := settings_of_send1_eq _ _ _ _ _ heq2
        show r2.settings = r.settings
        rw [h2]
      · rename_i m r2 w2 heq2
        have h2 := settings_of_send1_eq _ _ _ _ _ heq2
        split
        · exact h2
        · rename_i u2 s2 w3 heq3
          split
          · exact h2
          · rename_i kv2 hk2
            split
            rename_i res r4 w4 heq4
            have h4 := settings_of_send1_eq _ _ _ _ _ heq4
            show r4.settings = r.settings
            rw [h4]
            show r2.settings = r.settings
            rw [h2]
      · rename_i e2 r2 w2 hne2 heq2
        have h2 := settings_of_send1_eq _ _ _ _ _ heq2
        show r2.settings = r.settings
        rw [h2]

/-- C1: the spec requires that a Session constructed with no api_key
argument, no key-file location and the environment variable unset fails
with the credentials error; the code instead completes, storing None as
the api key, because os.environ.get never raises the KeyError its
except branch guards for.  This theorem evaluates the embedded
constructor at exactly that input. -/
theorem c1_session_init_completes_without_credentials
    (read_api_key : String → String) :
    Session.init none none read_api_key (fun _ => none) =
      .ok { api_key := none, logged_in := false, key := none } := rfl

/-- C4: classification of a successfully decoded response: with status
equal to error and errormessage a string msg, the exact text no
"session" in JSON. raises NoSessionError, a msg with prefix no session
with key raises InvalidSessionError, any other msg raises the fallback
InvalidRequest carrying msg; with status not equal to error the decoded
response is returned unchanged. -/
theorem c4_error_classification (resp : Dict) (msg : String) :
    (resp.getD "status" (Val.vStr "") = Val.vStr "error" →
      resp.get? "errormessage" = some (Val.vStr msg) →
      ((msg = "no \"session\" in JSON." →
          classifyResponse resp = .error (.noSessionError msg)) ∧
       (strStartsWith msg "no session with key" = true →
          classifyResponse resp = .error (.invalidSessionError msg)) ∧
       (msg ≠ "no \"session\" in JSON." →
          strStartsWith msg "no session with key" = false →
          classifyResponse resp = .error (.invalidRequest msg)))) ∧
    (resp.getD "status" (Val.vStr "") ≠ Val.vStr "error" →
      classifyResponse resp = .ok resp) := by
  constructor
  · intro hst herr
    refine ⟨?_, ?_, ?_⟩
    · intro hexact
      simp [classifyResponse, hst, herr, hexact]
    · intro hpre
      have hne : msg ≠ "no \"session\" in JSON." := by
        intro heq
        rw [heq] at hpre
        exact absurd hpre (by decide)
      simp [classifyResponse, hst, herr, hne, hpre]
    · intro hne hpre
      simp [classifyResponse, hst, herr, hne, hpre]
  · intro hst
    exact classifyResponse_ok resp hst

def respBoom : Dict := ⟨[("status", Val.vStr "error"), ("errormessage", Val.vStr "boom")]⟩

theorem c4_error_classification_witness :
    classifyResponse respBoom = .error (.invalidRequest "boom") :=
  ((c4_error_classification respBoom "boom").1 (by decide) (by decide)).2.2
    (by decide) (by decide)

/-- C5: when a key is present in both the data and the settings mapping
of a Request, the value at that key in the merged request-json object is
the one from settings, deterministically: merging with double-star
unpacking of data then settings lets settings win the collision. -/
theorem c5_settings_wins_collision (r : Request) (k : String) (vd vs : Val)
    (hnd : r.settings.NodupKeys)
    (_hd : r.data.get? k = some vd) (hs : r.settings.get? k = some vs) :
    r.payload.get? k = some vs := by
  unfold Request.payload
  show lookupKey (mergeKey r.data.entries r.settings.entries) k = some vs
  exact lookupKey_mergeKey_of_some r.settings.entries r.data.entries k vs hnd hs

def reqCollide : Request :=
  { url := some "url", method := HttpMethod.post,
    data := ⟨[("a", Val.vNum 1)]⟩, settings := ⟨[("a", Val.vNum 2)]⟩,
    response := none }

theorem c5_settings_wins_collision_witness :
    reqCollide.payload.get? "a" = some (Val.vNum 2) :=
  c5_settings_wins_collision reqCollide "a" (Val.vNum 1) (Val.vNum 2)
    (by decide) (by decide) (by decide)

/-- C7: when login makes its network call (forced, or not yet logged in)
and the decoded response classifies cleanly but its status is not the
string success, login raises LoginFailedException carrying the response
and the Session is returned unchanged: logged_in keeps its prior value
and no session key is stored; only the call counter of the login
endpoint advances. -/
theorem c7_login_failure_state_unchanged (force : Bool) (s : Session) (w : World)
    (hcond : force = true ∨ s.logged_in = false)
    (hok : (w.loginResponses w.loginCalls).getD "status" (Val.vStr "") ≠ Val.vStr "error")
    (hfail : ¬ (w.loginResponses w.loginCalls).get? "status" = some (Val.vStr "success")) :
    Session.login force s w =
      (.error (.loginFailedException (w.loginResponses w.loginCalls)), s,
       { w with loginCalls := w.loginCalls + 1 }) :=
  login_failure force s w hcond hok hfail

def sessionFresh : Session := { api_key := some "apikey", logged_in := false, key := none }

def respFailureDict : Dict := ⟨[("status", Val.vStr "failure")]⟩

def worldFail : World :=
  { loginResponses := fun _ => respFailureDict,
    reqResponses := fun _ _ => ⟨[]⟩,
    loginCalls := 0, reqCalls := 0 }

theorem c7_login_failure_state_unchanged_witness :
    Session.login false sessionFresh worldFail =
      (.error (.loginFailedException respFailureDict), sessionFresh,
       { worldFail with loginCalls := 1 }) :=
  (c7_login_failure_state_unchanged false sessionFresh worldFail
    (Or.inr rfl) (by decide) (by decide)).trans rfl

/-- C8: the method selector of Request construction accepts exactly the
strings get and post compared case-insensitively (through lowercasing),
and any other method makes construction itself fail, with the KeyError
of the lookup in the method dict carrying the lowercased string. -/
theorem c8_method_selector :
    (∀ (url : Option String) (d s : Option Dict) (m : String),
        strLower m = "get" ∨ strLower m = "post" →
        ∃ req, Request.init url m d s = .ok req) ∧
    (∀ (url : Option String) (d s : Option Dict) (m : String),
        strLower m ≠ "get" → strLower m ≠ "post" →
        Request.init url m d s = .error (.keyError (strLower m))) := by
  constructor
  · intro url d s m hm
    rcases hm with h | h
    · exact ⟨{ url := url, method := HttpMethod.get,
               data := match d with | none => ⟨[]⟩ | some d0 => d0,
               settings := match s with | none => ⟨[]⟩ | some s0 => s0,
               response := none },
             by unfold Request.init methodDict; rw [h]; rfl⟩
    · exact ⟨{ url := url, method := HttpMethod.post,
               data := match d with | none => ⟨[]⟩ | some d0 => d0,
               settings := match s with | none => ⟨[]⟩ | some s0 => s0,
               response := none },
             by unfold Request.init methodDict; rw [h]; rfl⟩
  · intro url d s m h1 h2
    unfold Request.init methodDict
    rw [if_neg h2, if_neg h1]

theorem c8_method_selector_witness :
    (∃ req, Request.init (some "url") "GET" none none = .ok req) ∧
    Request.init (some "url") "delete" none none = .error (.keyError "delete") :=
  ⟨c8_method_selector.1 (some "url") none none "GET" (Or.inl (by decide)),
   (c8_method_selector.2 (some "url") none none "delete" (by decide)
     (by decide)).trans rfl⟩

/-- C9: at the heap level, Request construction copies the caller's data
and settings dict objects into fresh objects, so the in-place injection
of the session key by AuthorizedRequest mutates only the instance's own
data object: after construction from two existing objects and an
injection, the contents of both caller objects are unchanged, while the
instance's data object holds the injected key. -/
theorem c9_construction_copies_caller_mappings (h : Heap) (cd cs : Nat) (k : Val)
    (hcd : cd < h.next) (hcs : cs < h.next) :
    (injectSessionHeap (Request.initHeap h (some cd) (some cs)).1
        (Request.initHeap h (some cd) (some cs)).2.1 k).mem cd = h.mem cd ∧
    (injectSessionHeap (Request.initHeap h (some cd) (some cs)).1
        (Request.initHeap h (some cd) (some cs)).2.1 k).mem cs = h.mem cs ∧
    (injectSessionHeap (Request.initHeap h (some cd) (some cs)).1
        (Request.initHeap h (some cd) (some cs)).2.1 k).mem
        ((Request.initHeap h (some cd) (some cs)).2.1) =
      (h.mem cd).insert "session" k := by
  have ne1 : cd ≠ h.next := Nat.ne_of_lt hcd
  have ne2 : cd ≠ h.next + 1 := by omega
  have ne3 : cs ≠ h.next := Nat.ne_of_lt hcs
  have ne4 : cs ≠ h.next + 1 := by omega
  have ne5 : h.next ≠ h.next + 1 := by omega
  refine ⟨?_, ?_, ?_⟩ <;>
    simp [injectSessionHeap, Request.initHeap, Heap.alloc, Heap.write,
      ne1, ne2, ne3, ne4, ne5]

def heapC : Heap :=
  { mem := fun x =>
      if x = 0 then ⟨[("a", Val.vNum 1)]⟩
      else if x = 1 then ⟨[("b", Val.vNum 2)]⟩
      else ⟨[]⟩,
    next := 2 }

/-- C6: login is idempotent unless forced.  A non-forced login on an
already-logged-in Session returns immediately with no network call and
no state change; a forced login always makes exactly one network call,
so two forced logins make two; and for a fresh Session with a successful
login response, the first non-forced login makes one network call and
sets logged_in, after which a second non-forced login is the identity,
so the pair makes exactly one network call. -/
theorem c6_login_call_counts :
    (∀ (s : Session) (w : World), s.logged_in = true →
        Session.login false s w = (.ok (), s, w)) ∧
    (∀ (s : Session) (w : World),
        ((Session.login true s w).2.2).loginCalls = w.loginCalls + 1) ∧
    (∀ (s : Session) (w : World),
        ((Session.login true (Session.login true s w).2.1
            (Session.login true s w).2.2).2.2).loginCalls = w.loginCalls + 2) ∧
    (∀ (s : Session) (w : World) (v : Val), s.logged_in = false →
        (w.loginResponses w.loginCalls).get? "status" = some (Val.vStr "success") →
        (w.loginResponses w.loginCalls).get? "session" = some v →
        ((Session.login false s w).2.2).loginCalls = w.loginCalls + 1 ∧
        ((Session.login false s w).2.1).logged_in = true ∧
        Session.login false (Session.login false s w).2.1 (Session.login false s w).2.2 =
          (.ok (), (Session.login false s w).2.1, (Session.login false s w).2.2)) := by
  refine ⟨login_noop, ?_, ?_, ?_⟩
  · intro s w
    exact login_loginCalls_of_call true s w (by simp)
  · intro s w
    rw [login_loginCalls_of_call true _ _ (by simp),
      login_loginCalls_of_call true s w (by simp)]
  · intro s w v hlog hst hsess
    have hfirst := login_success false s w v (Or.inr hlog) hst hsess
    rw [hfirst]
    exact ⟨rfl, rfl, login_noop _ _ rfl⟩

def respSuccessDict : Dict :=
  ⟨[("status", Val.vStr "success"), ("session", Val.vStr "XYZ")]⟩

def worldSucc : World :=
  { loginResponses := fun _ => respSuccessDict,
    reqResponses := fun _ _ => ⟨[]⟩,
    loginCalls := 0, reqCalls := 0 }

theorem c6_login_call_counts_witness :
    ((Session.login false sessionFresh worldSucc).2.2).loginCalls = 1 ∧
    ((Session.login false sessionFresh worldSucc).2.1).logged_in = true ∧
    Session.login false (Session.login false sessionFresh worldSucc).2.1
        (Session.login false sessionFresh worldSucc).2.2 =
      (.ok (), (Session.login false sessionFresh worldSucc).2.1,
       (Session.login false sessionFresh worldSucc).2.2) :=
  c6_login_call_counts.2.2.2 sessionFresh worldSucc (Val.vStr "XYZ") rfl
    (by decide) (by decide)

theorem c9_construction_copies_caller_mappings_witness :
    (injectSessionHeap (Request.initHeap heapC (some 0) (some 1)).1
        (Request.initHeap heapC (some 0) (some 1)).2.1 (Val.vStr "XYZ")).mem 0 =
      Dict.mk [("a", Val.vNum 1)] :=
  (c9_construction_copies_caller_mappings heapC 0 1 (Val.vStr "XYZ")
    (by decide) (by decide)).1.trans rfl

/-- C2: for an AuthorizedRequest send on a logged-in Session whose first
underlying attempt is answered with an invalid-session error response and
whose second attempt (after a forced re-login answered successfully, whose
new key is injected into the request) is answered with a non-error
response, the overall send returns that second decoded response, exactly
two calls are made to the request endpoint and exactly one (the forced
re-login) to the login endpoint. -/
theorem c2_retry_once_then_succeed (r : Request) (s : Session) (w : World)
    (kv kv2 : Val) (m : String) (resp1 resp2 : Dict)
    (hlog : s.logged_in = true) (hkey : s.key = some kv)
    (hr1 : ∀ p, w.reqResponses w.reqCalls p = resp1)
    (hr1st : resp1.getD "status" (Val.vStr "") = Val.vStr "error")
    (hr1msg : resp1.get? "errormessage" = some (Val.vStr m))
    (hr1pre : strStartsWith m "no session with key" = true)
    (hlst : (w.loginResponses w.loginCalls).get? "status" = some (Val.vStr "success"))
    (hlsess : (w.loginResponses w.loginCalls).get? "session" = some kv2)
    (hr2 : ∀ p, w.reqResponses (w.reqCalls + 1) p = resp2)
    (hr2st : resp2.getD "status" (Val.vStr "") ≠ Val.vStr "error") :
    (AuthorizedRequest.send r s w).1 = .ok resp2 ∧
    ((AuthorizedRequest.send r s w).2.2.2).reqCalls = w.reqCalls + 2 ∧
    ((AuthorizedRequest.send r s w).2.2.2).loginCalls = w.loginCalls + 1 := by
  have hcl1 : ∀ p, classifyResponse (w.reqResponses w.reqCalls p) =
      .error (.invalidSessionError m) := by
    intro p
    rw [hr1 p]
    exact classifyResponse_invalid_session resp1 m hr1st hr1msg hr1pre
  have hcl2 : ∀ p, classifyResponse (w.reqResponses (w.reqCalls + 1) p) = .ok resp2 := by
    intro p
    rw [hr2 p]
    exact classifyResponse_ok resp2 hr2st
  have hlaux : Session.login true s { w with reqCalls := w.reqCalls + 1 } =
      (.ok (), { s with key := some kv2, logged_in := true },
       { w with reqCalls := w.reqCalls + 1, loginCalls := w.loginCalls + 1 }) :=
    login_success true s _ kv2 (Or.inl rfl) hlst hlsess
  refine ⟨?_, ?_, ?_⟩ <;>
    · unfold AuthorizedRequest.send
      simp only [login_noop s w hlog, hkey, send1_eq, hcl1, hlaux, hcl2]

def respInvalidDict : Dict :=
  ⟨[("status", Val.vStr "error"),
    ("errormessage", Val.vStr "no session with key abc")]⟩

def respOkDict : Dict := ⟨[("status", Val.vStr "success")]⟩

def sessionLogged : Session :=
  { api_key := some "apikey", logged_in := true, key := some (Val.vStr "oldkey") }

def reqPlain : Request :=
  { url := some "url", method := HttpMethod.post,
    data := ⟨[]⟩, settings := ⟨[]⟩, response := none }

def worldRetry : World :=
  { loginResponses := fun _ => respSuccessDict,
    reqResponses := fun n _ => if n = 0 then respInvalidDict else respOkDict,
    loginCalls := 0, reqCalls := 0 }

theorem c2_retry_once_then_succeed_witness :
    (AuthorizedRequest.send reqPlain sessionLogged worldRetry).1 = .ok respOkDict ∧
    ((AuthorizedRequest.send reqPlain sessionLogged worldRetry).2.2.2).reqCalls = 2 ∧
    ((AuthorizedRequest.send reqPlain sessionLogged worldRetry).2.2.2).loginCalls = 1 :=
  c2_retry_once_then_succeed reqPlain sessionLogged worldRetry
    (Val.vStr "oldkey") (Val.vStr "XYZ") "no session with key abc"
    respInvalidDict respOkDict rfl rfl (fun _ => rfl) (by decide) (by decide)
    (by decide) (by decide) (by decide) (fun _ => rfl) (by decide)

/-- C3: an AuthorizedRequest send never makes more than two calls to the
request endpoint, whatever the environment answers; and when both the
first attempt and the single retry are answered with responses whose
errormessage has the prefix no session with key, the send fails with the
second InvalidSessionError after exactly two calls to the request
endpoint, with no third attempt. -/
theorem c3_at_most_one_retry :
    (∀ (r : Request) (s : Session) (w : World),
        ((AuthorizedRequest.send r s w).2.2.2).reqCalls ≤ w.reqCalls + 2) ∧
    (∀ (r : Request) (s : Session) (w : World) (kv kv2 : Val) (m1 m2 : String)
        (resp1 resp2 : Dict),
        s.logged_in = true → s.key = some kv →
        (∀ p, w.reqResponses w.reqCalls p = resp1) →
        resp1.getD "status" (Val.vStr "") = Val.vStr "error" →
        resp1.get? "errormessage" = some (Val.vStr m1) →
        strStartsWith m1 "no session with key" = true →
        (w.loginResponses w.loginCalls).get? "status" = some (Val.vStr "success") →
        (w.loginResponses w.loginCalls).get? "session" = some kv2 →
        (∀ p, w.reqResponses (w.reqCalls + 1) p = resp2) →
        resp2.getD "status" (Val.vStr "") = Val.vStr "error" →
        resp2.get? "errormessage" = some (Val.vStr m2) →
        strStartsWith m2 "no session with key" = true →
        (AuthorizedRequest.send r s w).1 = .error (.invalidSessionError m2) ∧
        ((AuthorizedRequest.send r s w).2.2.2).reqCalls = w.reqCalls + 2) := by
  refine ⟨send_reqCalls_le, ?_⟩
  intro r s w kv kv2 m1 m2 resp1 resp2 hlog hkey hr1 hr1st hr1msg hr1pre
    hlst hlsess hr2 hr2st hr2msg hr2pre
  have hcl1 : ∀ p, classifyResponse (w.reqResponses w.reqCalls p) =
      .error (.invalidSessionError m1) := by
    intro p
    rw [hr1 p]
    exact classifyResponse_invalid_session resp1 m1 hr1st hr1msg hr1pre
  have hcl2 : ∀ p, classifyResponse (w.reqResponses (w.reqCalls + 1) p) =
      .error (.invalidSessionError m2) := by
    intro p
    rw [hr2 p]
    exact classifyResponse_invalid_session resp2 m2 hr2st hr2msg hr2pre
  have hlaux : Session.login true s { w with reqCalls := w.reqCalls + 1 } =
      (.ok (), { s with key := some kv2, logged_in := true },
       { w with reqCalls := w.reqCalls + 1, loginCalls := w.loginCalls + 1 }) :=
    login_success true s _ kv2 (Or.inl rfl) hlst hlsess
  refine ⟨?_, ?_⟩ <;>
    · unfold AuthorizedRequest.send
      simp only [login_noop s w hlog, hkey, send1_eq, hcl1, hlaux, hcl2]

def worldDoubleInvalid : World :=
  { loginResponses := fun _ => respSuccessDict,
    reqResponses := fun _ _ => respInvalidDict,
    loginCalls := 0, reqCalls := 0 }

theorem c3_at_most_one_retry_witness :
    (AuthorizedRequest.send reqPlain sessionLogged worldDoubleInvalid).1 =
      .error (.invalidSessionError "no session with key abc") ∧
    ((AuthorizedRequest.send reqPlain sessionLogged worldDoubleInvalid).2.2.2).reqCalls = 2 :=
  c3_at_most_one_retry.2 reqPlain sessionLogged worldDoubleInvalid
    (Val.vStr "oldkey") (Val.vStr "XYZ")
    "no session with key abc" "no session with key abc"
    respInvalidDict respInvalidDict rfl rfl (fun _ => rfl) (by decide) (by decide)
    (by decide) (by decide) (by decide) (fun _ => rfl) (by decide) (by decide)
    (by decide)

/-- C10: when the settings mapping of an AuthorizedRequest contains a
session key, the value at session in the merged request-json payload is
the one from settings, not the key injected from the bound Session: the
injection writes only into the data mapping (the settings of the request
are untouched by the whole send), and settings is merged last, so it
wins the collision. -/
theorem c10_settings_session_overrides_injected :
    (∀ (r : Request) (kv v : Val), r.settings.NodupKeys →
        r.settings.get? "session" = some v →
        (Request.payload
            { r with data := r.data.insert "session" kv }).get? "session" = some v) ∧
    (∀ (r : Request) (s : Session) (w : World),
        ((AuthorizedRequest.send r s w).2.1).settings = r.settings) := by
  constructor
  · intro r kv v hnd hs
    unfold Request.payload
    show lookupKey (mergeKey _ r.settings.entries) "session" = some v
    exact lookupKey_mergeKey_of_some r.settings.entries _ "session" v hnd hs
  · exact send_settings_preserved

def reqSessionInSettings : Request :=
  { url := some "url", method := HttpMethod.post,
    data := ⟨[]⟩,
    settings := ⟨[("session", Val.vStr "fromsettings")]⟩,
    response := none }

theorem c10_settings_session_overrides_injected_witness :
    (Request.payload
        { reqSessionInSettings with
          data := reqSessionInSettings.data.insert "session" (Val.vStr "injected")
        }).get? "session" = some (Val.vStr "fromsettings") :=
  c10_settings_session_overrides_injected.1 reqSessionInSettings
    (Val.vStr "injected") (Val.vStr "fromsettings") (by decide) (by decide)

end AstrometryNetClient
